import Mathlib

/-!
Shallow embedding of `src/postgres/dao.go` (package `postgres` of
skamenetskiy/session): a session-record data access layer over postgres.

Modelling choices:
* Go `time.Duration` is an `int64` count of nanoseconds; we model it as `Int`
  (`Duration`), with `timeSecond = 10^9` standing for Go's `time.Second`.
  Go's integer division truncates toward zero, which is `Int.tdiv`.
* The postgres table is a list of rows (`Table`), each row holding the four
  columns `session_id, contents, last_active, expiration` (expiration stored
  as an integer count of seconds, exactly as the SQL schema does).
* `sync.Pool` is modelled as a free list of `DBRow`; `Get` pops the head when
  the list is non-empty and otherwise allocates a fresh zero row (the pool's
  `New` is `new(DBRow)`, whose fields are Go zero values).
* The driver is modelled by outcome parameters: a `QueryRow` call may fail
  with an error, a `Scan` may fail with an error other than `sql.ErrNoRows`,
  or proceed normally; `sql.ErrNoRows` itself is the deterministic outcome
  of a single-row query whose predicate matches no row.
* Go's int64 multiplication `data.expiration *= time.Second` wraps around on
  overflow; `wrapInt64` models that two's-complement wrap and is applied
  exactly where the source multiplies.
* The `session_id` column is the table's unique key: `INSERT` and the
  re-keying `UPDATE` of `regenerate` report a duplicate-key error (changing
  nothing) when they would produce a second live row with the same key.
-/

namespace Session

/-- Go `time.Second` as an int64 nanosecond count. -/
def timeSecond : Int := 1000000000

/-- Go `time.Duration`: int64 nanoseconds. -/
abbrev Duration := Int

/-- `DBRow` from dao.go: the pooled in-memory session record.
`expiration` is a `time.Duration` field. -/
structure DBRow where
  sessionID : String
  contents : String
  lastActive : Int
  expiration : Duration
  deriving Repr, DecidableEq

/-- Go `new(DBRow)`: every field at its zero value. -/
def DBRow.zero : DBRow := ⟨"", "", 0, 0⟩

/-- `(row *DBRow) Reset()` from dao.go: sets `sessionID`, `contents` and
`lastActive` back to their zero values.  (The source does not touch
`expiration`.) -/
def DBRow.Reset (row : DBRow) : DBRow :=
  { row with sessionID := "", contents := "", lastActive := 0 }

/-- `acquireDBRow`: `dbRowPool.Get()`. Pops a pooled row if one is idle,
otherwise the pool's `New` allocates a zeroed row. Returns the row and the
remaining pool. -/
def acquireDBRow : List DBRow → DBRow × List DBRow
  | [] => (DBRow.zero, [])
  | r :: rs => (r, rs)

/-- `releaseDBRow`: `row.Reset()` followed by `dbRowPool.Put(row)`. -/
def releaseDBRow (row : DBRow) (pool : List DBRow) : List DBRow :=
  row.Reset :: pool

/-- One row of the postgres table: columns `session_id`, `contents`,
`last_active` (Unix seconds) and `expiration` (integer seconds, 0 = never). -/
structure TableRow where
  session_id : String
  contents : String
  last_active : Int
  expiration : Int
  deriving Repr, DecidableEq

/-- The backing table. -/
abbrev Table := List TableRow

/-- Truncating conversion bound for the `expiration` parameter:
Go `expiration/time.Second` on `time.Duration` (int64 division truncates
toward zero). -/
def durationToSeconds (d : Duration) : Int := Int.tdiv d timeSecond

/-- Two's-complement wrap-around of Go int64 arithmetic: the result of an
int64 operation is its mathematical value reduced into
`[-2^63, 2^63)`. -/
def wrapInt64 (x : Int) : Int :=
  (x + 9223372036854775808) % 18446744073709551616 - 9223372036854775808

/-- The `Dao` struct from dao.go: connection configuration plus the seven
statement templates built once by `NewDao`. -/
structure Dao where
  tableName : String
  Driver : String
  Dsn : String
  sqlGetSessionBySessionID : String
  sqlCountSessions : String
  sqlUpdateBySessionID : String
  sqlDeleteBySessionID : String
  sqlDeleteExpiredSessions : String
  sqlInsert : String
  sqlRegenerate : String
  deriving Repr, DecidableEq

/-- `NewDao(driver, dsn, tableName)`. `sql.Open`'s outcome is modelled by
`openErr` (`none` = success). The source assigns the seven `fmt.Sprintf`
templates unconditionally after the open and returns `db, err`, so the
fully built `Dao` is returned together with whatever error the open
produced. -/
def NewDao (driver dsn tableName : String) (openErr : Option String) :
    Dao × Option String :=
  ({ tableName := tableName
     Driver := driver
     Dsn := dsn
     sqlGetSessionBySessionID :=
       "SELECT session_id,contents,last_active,expiration FROM " ++ tableName ++
         " WHERE session_id=$1"
     sqlCountSessions := "SELECT count(*) as total FROM " ++ tableName
     sqlUpdateBySessionID :=
       "UPDATE " ++ tableName ++
         " SET contents=$1,last_active=$2,expiration=$3 WHERE session_id=$4"
     sqlDeleteBySessionID := "DELETE FROM " ++ tableName ++ " WHERE session_id=$1"
     sqlDeleteExpiredSessions :=
       "DELETE FROM " ++ tableName ++
         " WHERE last_active+expiration<=$1 AND expiration<>0"
     sqlInsert :=
       "INSERT INTO " ++ tableName ++
         " (session_id, contents, last_active, expiration) VALUES ($1,$2,$3,$4)"
     sqlRegenerate :=
       "UPDATE " ++ tableName ++
         " SET session_id=$1,last_active=$2,expiration=$3 WHERE session_id=$4" },
   openErr)

/-- Driver outcome for `getSessionBySessionID`: the `QueryRow` call may fail,
the `Scan` may fail with an error other than `sql.ErrNoRows`, or everything
proceeds normally (`sql.ErrNoRows` is then determined by the table). -/
inductive FetchOutcome where
  | queryErr (msg : String)
  | scanErr (msg : String)
  | ok
  deriving Repr, DecidableEq

/-- `getSessionBySessionID` from dao.go, with the pool state made explicit.

```go
data := acquireDBRow()
row, err := db.QueryRow(db.sqlGetSessionBySessionID, gotils.B2S(sessionID))
if err != nil { return nil, err }
err = row.Scan(&data.sessionID, &data.contents, &data.lastActive, &data.expiration)
if err != nil && err != sql.ErrNoRows { return nil, err }
data.expiration *= time.Second
return data, nil
```

The single-row query returns the first table row whose `session_id` matches;
when none matches, `Scan` reports `sql.ErrNoRows` and leaves `data`
untouched.  The `*= time.Second` multiplication is int64 arithmetic and
wraps on overflow (`wrapInt64`).  Note that no return path calls
`releaseDBRow`. -/
def getSessionBySessionID (pool : List DBRow) (tbl : Table)
    (outcome : FetchOutcome) (sessionID : String) :
    Except String DBRow × List DBRow :=
  let a := acquireDBRow pool
  let data := a.1
  let pool1 := a.2
  match outcome with
  | .queryErr msg => (.error msg, pool1)
  | .scanErr msg => (.error msg, pool1)
  | .ok =>
    match tbl.find? (fun r => r.session_id == sessionID) with
    | some r =>
        (.ok { sessionID := r.session_id
               contents := r.contents
               lastActive := r.last_active
               expiration := wrapInt64 (r.expiration * timeSecond) }, pool1)
    | none =>
        (.ok { data with expiration := wrapInt64 (data.expiration * timeSecond) },
         pool1)

/-- Driver outcome for `countSessions`: query failure, scan failure, or
success. -/
inductive CountOutcome where
  | queryErr (msg : String)
  | scanErr (msg : String)
  | ok
  deriving Repr, DecidableEq

/-- `countSessions` from dao.go: returns 0 when `QueryRow` fails, 0 when
`Scan` fails, and otherwise the scanned `count(*)` of the table.  The Go
signature returns only `int`: no error is ever reported. -/
def countSessions (tbl : Table) (outcome : CountOutcome) : Int :=
  match outcome with
  | .queryErr _ => 0
  | .scanErr _ => 0
  | .ok => (tbl.length : Int)

/-- Effect of the UPDATE statement
`UPDATE t SET contents=$1,last_active=$2,expiration=$3 WHERE session_id=$4`
on the table: every matching row gets the three new column values; the
affected-row count is the number of matching rows. -/
def updateExec (tbl : Table) (contents : String) (lastActive expirSecs : Int)
    (sessionID : String) : Table × Int :=
  (tbl.map (fun r =>
      if r.session_id == sessionID then
        { r with contents := contents, last_active := lastActive,
                 expiration := expirSecs }
      else r),
   ((tbl.filter (fun r => r.session_id == sessionID)).length : Int))

/-- `updateBySessionID` from dao.go: binds
`(contents, lastActiveTime, expiration/time.Second, sessionID)` to the
UPDATE statement. -/
def updateBySessionID (tbl : Table) (sessionID contents : String)
    (lastActiveTime : Int) (expiration : Duration) : Table × Int :=
  updateExec tbl contents lastActiveTime (durationToSeconds expiration) sessionID

/-- `deleteBySessionID` from dao.go:
`DELETE FROM t WHERE session_id=$1`. -/
def deleteBySessionID (tbl : Table) (sessionID : String) : Table × Int :=
  (tbl.filter (fun r => !(r.session_id == sessionID)),
   ((tbl.filter (fun r => r.session_id == sessionID)).length : Int))

/-- The WHERE predicate of the expiration sweep:
`last_active+expiration<=$1 AND expiration<>0` with `$1 = now`. -/
def isExpired (now : Int) (r : TableRow) : Bool :=
  decide (r.last_active + r.expiration ≤ now) && decide (r.expiration ≠ 0)

/-- `deleteExpiredSessions` from dao.go:
`DELETE FROM t WHERE last_active+expiration<=$1 AND expiration<>0` bound to
`time.Now().Unix()`.  The clock is read once per call; `now` is that single
reading. -/
def deleteExpiredSessions (tbl : Table) (now : Int) : Table × Int :=
  (tbl.filter (fun r => !isExpired now r),
   ((tbl.filter (isExpired now)).length : Int))

/-- Effect of the INSERT statement on the table: postgres appends the row,
or reports a uniqueness violation when a live row already has this
`session_id` (the column is the unique key). -/
def insertExec (tbl : Table) (sessionID contents : String)
    (lastActive expirSecs : Int) : Except String (Table × Int) :=
  if tbl.any (fun r => r.session_id == sessionID) then
    .error "duplicate key value violates unique constraint"
  else
    .ok (tbl ++ [⟨sessionID, contents, lastActive, expirSecs⟩], 1)

/-- `insert` from dao.go: binds
`(sessionID, contents, lastActiveTime, expiration/time.Second)` to the
INSERT statement. -/
def insert (tbl : Table) (sessionID contents : String) (lastActiveTime : Int)
    (expiration : Duration) : Except String (Table × Int) :=
  insertExec tbl sessionID contents lastActiveTime (durationToSeconds expiration)

/-- The uniqueness check of the re-keying UPDATE: the statement violates the
`session_id` unique constraint when a row is re-keyed to `newID` while a row
that is not being re-keyed already holds `newID`, or when two matching rows
would both be re-keyed to the same fresh `newID`. -/
def regenerateConflict (tbl : Table) (oldID newID : String) : Bool :=
  tbl.any (fun r => r.session_id == oldID) &&
    (tbl.any (fun r => r.session_id == newID && !(r.session_id == oldID)) ||
      (decide (2 ≤ (tbl.filter (fun r => r.session_id == oldID)).length) &&
        !(oldID == newID)))

/-- `regenerate` from dao.go:
`UPDATE t SET session_id=$1,last_active=$2,expiration=$3 WHERE session_id=$4`
bound to `(newID, lastActiveTime, expiration/time.Second, oldID)`: every row
keyed by `oldID` is re-keyed to `newID` with refreshed `last_active` and
`expiration`; `contents` is not in the SET list.  When the re-keying would
duplicate the unique `session_id` key, postgres rejects the statement with a
duplicate-key error and changes nothing. -/
def regenerate (tbl : Table) (oldID newID : String) (lastActiveTime : Int)
    (expiration : Duration) : Except String (Table × Int) :=
  if regenerateConflict tbl oldID newID then
    .error "duplicate key value violates unique constraint"
  else
    .ok (tbl.map (fun r =>
        if r.session_id == oldID then
          { r with session_id := newID, last_active := lastActiveTime,
                   expiration := durationToSeconds expiration }
        else r),
      ((tbl.filter (fun r => r.session_id == oldID)).length : Int))

/-! ## Helper lemmas -/

/-- `find?` skips a block of rows on which the predicate is false. -/
theorem find?_append_of_forall_false {p : TableRow → Bool} {l l2 : List TableRow}
    (h : ∀ r ∈ l, p r = false) :
    List.find? p (l ++ l2) = List.find? p l2 := by
  induction l with
  | nil => rfl
  | cons a as ih =>
      simp only [List.cons_append, List.find?]
      rw [h a (by simp)]
      exact ih (fun r hr => h r (by simp [hr]))

/-- A filter and its complement partition the length of a list. -/
theorem length_filter_add_length_filter_not (l : Table) (p : TableRow → Bool) :
    (l.filter p).length + (l.filter (fun a => !p a)).length = l.length := by
  induction l with
  | nil => rfl
  | cons a as ih => by_cases h : p a <;> simp [List.filter, h] <;> omega

/-- Go's toward-zero int64 division by `time.Second` truncates the sub-second
remainder of a nonnegative duration. -/
theorem durationToSeconds_mul_add (s r : Int) (hs : 0 ≤ s) (hr : 0 ≤ r)
    (hr2 : r < timeSecond) : durationToSeconds (s * timeSecond + r) = s := by
  simp only [durationToSeconds, timeSecond] at *
  rw [Int.tdiv_eq_ediv (by positivity) (by norm_num)]
  omega

/-- Whole-second durations divide back exactly. -/
theorem durationToSeconds_mul (s : Int) : durationToSeconds (s * timeSecond) = s := by
  apply Int.mul_tdiv_cancel
  norm_num [timeSecond]

/-- An int64 value already in range is unchanged by the wrap. -/
theorem wrapInt64_eq_self (x : Int) (h1 : -9223372036854775808 ≤ x)
    (h2 : x ≤ 9223372036854775807) : wrapInt64 x = x := by
  unfold wrapInt64
  rw [Int.emod_eq_of_lt (by omega) (by omega)]
  omega

/-- Under the unique-key invariant at most one row matches a given key. -/
theorem filter_key_length_le_one (tbl : Table) (x : String)
    (h : tbl.Pairwise (fun a b => a.session_id ≠ b.session_id)) :
    (tbl.filter (fun r => r.session_id == x)).length ≤ 1 := by
  induction tbl with
  | nil => simp
  | cons a as ih =>
      rw [List.pairwise_cons] at h
      by_cases ha : a.session_id = x
      · have hrest : as.filter (fun r => r.session_id == x) = [] := by
          rw [List.filter_eq_nil_iff]
          intro b hb
          simp only [beq_iff_eq]
          intro hbx
          exact h.1 b hb (by rw [ha, hbx])
        simp [List.filter_cons, ha, hrest]
      · simpa [List.filter_cons, ha] using ih h.2

/-- Membership in the table left by the expiration sweep. -/
theorem deleteExpired_mem (tbl : Table) (now : Int) (r : TableRow) :
    r ∈ (deleteExpiredSessions tbl now).1 ↔
      r ∈ tbl ∧ ¬(r.last_active + r.expiration ≤ now ∧ r.expiration ≠ 0) := by
  simp [deleteExpiredSessions, List.mem_filter, isExpired]
  intro _
  constructor
  · intro h h2
    omega
  · intro h
    omega

/-! ## Claim theorems -/

/-- **C5 counterexample.** The claim says releasing a record clears every
one of its fields, expiration included.  `Reset` clears `sessionID`,
`contents` and `lastActive` but leaves `expiration` untouched: releasing the
concrete record `⟨"sid", "payload", 99, 7⟩` puts a record with expiration 7
(not 0) into the pool, and the next acquire hands that stale value out. -/
theorem reset_keeps_expiration_cex :
    DBRow.Reset ⟨"sid", "payload", 99, 7⟩ = ⟨"", "", 0, 7⟩ ∧ (7 : Int) ≠ 0 ∧
    acquireDBRow (releaseDBRow ⟨"sid", "payload", 99, 7⟩ []) = (⟨"", "", 0, 7⟩, []) :=
  ⟨rfl, by decide, rfl⟩

/-- **C5 (amended).** Releasing a record to the pool clears its identifier,
contents and lastActive to the zero/empty value, but leaves its expiration
unchanged: a record obtained by acquire after a release exposes the previous
occupant's expiration (and only that field). -/
theorem release_clears_all_but_expiration (r : DBRow) (pool : List DBRow) :
    acquireDBRow (releaseDBRow r pool) =
      ({ sessionID := "", contents := "", lastActive := 0,
         expiration := r.expiration }, pool) :=
  rfl

/-- **C6 (code bug).** In `getSessionBySessionID` no return path calls
`releaseDBRow`: with one idle row in the pool, a failing query (or a failing
scan) returns the error and leaves the pool empty — the acquired record was
neither reset nor returned, contradicting the reset-on-every-return-path
discipline.  (`releaseDBRow` would have put a reset row back, third
conjunct.) -/
theorem fetch_error_path_abandons_pooled_row :
    getSessionBySessionID [DBRow.zero] [] (.queryErr "connection refused") "s1" =
      (.error "connection refused", []) ∧
    getSessionBySessionID [DBRow.zero] [⟨"s1", "c", 1, 1⟩] (.scanErr "bad scan") "s1" =
      (.error "bad scan", []) ∧
    releaseDBRow DBRow.zero [] = [DBRow.zero] :=
  ⟨rfl, rfl, rfl⟩

/-- **C7.** The expiration bound by `insert` and `updateBySessionID` is the
whole number of seconds obtained by truncation: for any nonnegative duration
`s * timeSecond + r` with sub-second part `0 ≤ r < timeSecond`, the bound
value is exactly `s`, never rounded up. -/
theorem expiration_binding_truncates (tbl : Table) (id cts : String)
    (la s r : Int) (hs : 0 ≤ s) (hr : 0 ≤ r) (hr2 : r < timeSecond) :
    durationToSeconds (s * timeSecond + r) = s ∧
    updateBySessionID tbl id cts la (s * timeSecond + r) = updateExec tbl cts la s id ∧
    insert tbl id cts la (s * timeSecond + r) = insertExec tbl id cts la s := by
  have key := durationToSeconds_mul_add s r hs hr hr2
  exact ⟨key, by rw [updateBySessionID, key], by rw [insert, key]⟩

/-- **C7 witness.** A duration of 1.9 seconds (`1 * timeSecond + 900000000`
nanoseconds) is stored as 1 second by both statements. -/
theorem expiration_binding_truncates_witness :
    durationToSeconds (1 * timeSecond + 900000000) = 1 ∧
    updateBySessionID [] "s1" "c" 0 (1 * timeSecond + 900000000) =
      updateExec [] "c" 0 1 "s1" ∧
    insert [] "s1" "c" 0 (1 * timeSecond + 900000000) = insertExec [] "s1" "c" 0 1 :=
  expiration_binding_truncates [] "s1" "c" 0 1 900000000 (by decide) (by decide)
    (by decide)

/-- **C8.** `countSessions` never returns an error (its Go signature is a
bare `int`): a failing count query yields 0, a failing scan yields 0, and a
successful scan yields the table's `count(*)`; consequently a failing store
is indistinguishable from a store that legitimately holds zero sessions. -/
theorem countSessions_spec (tbl : Table) (msg : String) :
    countSessions tbl (.queryErr msg) = 0 ∧
    countSessions tbl (.scanErr msg) = 0 ∧
    countSessions tbl .ok = (tbl.length : Int) ∧
    countSessions [⟨"s1", "c", 0, 0⟩] (.queryErr msg) = countSessions ([] : Table) .ok :=
  ⟨rfl, rfl, rfl, rfl⟩

/-- **C10.** `NewDao` always returns the fully built access object: the
seven statement templates are assembled with the configured table name
substituted regardless of the open outcome (the returned `Dao` does not
depend on `openErr`), and the open error is returned alongside it. -/
theorem NewDao_spec (driver dsn tableName : String) (openErr : Option String) :
    (NewDao driver dsn tableName openErr).1 = (NewDao driver dsn tableName none).1 ∧
    (NewDao driver dsn tableName openErr).2 = openErr ∧
    (NewDao driver dsn tableName openErr).1.sqlGetSessionBySessionID =
      "SELECT session_id,contents,last_active,expiration FROM " ++ tableName ++
        " WHERE session_id=$1" ∧
    (NewDao driver dsn tableName openErr).1.sqlCountSessions =
      "SELECT count(*) as total FROM " ++ tableName ∧
    (NewDao driver dsn tableName openErr).1.sqlUpdateBySessionID =
      "UPDATE " ++ tableName ++
        " SET contents=$1,last_active=$2,expiration=$3 WHERE session_id=$4" ∧
    (NewDao driver dsn tableName openErr).1.sqlDeleteBySessionID =
      "DELETE FROM " ++ tableName ++ " WHERE session_id=$1" ∧
    (NewDao driver dsn tableName openErr).1.sqlDeleteExpiredSessions =
      "DELETE FROM " ++ tableName ++
        " WHERE last_active+expiration<=$1 AND expiration<>0" ∧
    (NewDao driver dsn tableName openErr).1.sqlInsert =
      "INSERT INTO " ++ tableName ++
        " (session_id, contents, last_active, expiration) VALUES ($1,$2,$3,$4)" ∧
    (NewDao driver dsn tableName openErr).1.sqlRegenerate =
      "UPDATE " ++ tableName ++
        " SET session_id=$1,last_active=$2,expiration=$3 WHERE session_id=$4" :=
  ⟨rfl, rfl, rfl, rfl, rfl, rfl, rfl, rfl, rfl⟩

/-- **C1.** For every identifier not yet in the table, every contents,
lastActive, and every whole-second expiration `s * timeSecond` with
`0 ≤ s` that is representable as a Go int64 duration (`s ≤ 9223372036`):
`insert` stores the row with an expiration column of exactly `s` seconds
(store divides by one second), and `fetchBySessionID` on that table returns
a record with the inserted identifier, contents and lastActive whose
expiration is `s * timeSecond` (load multiplies by one second, without
wrap-around on this domain) — exactly `s` seconds again. -/
theorem insert_fetch_roundtrip (tbl : Table) (pool : List DBRow)
    (id cts : String) (la s : Int)
    (hid : ∀ r ∈ tbl, r.session_id ≠ id) (hs : 0 ≤ s)
    (hs2 : s ≤ 9223372036) :
    insert tbl id cts la (s * timeSecond) =
      .ok (tbl ++ [⟨id, cts, la, s⟩], 1) ∧
    (getSessionBySessionID pool (tbl ++ [⟨id, cts, la, s⟩]) .ok id).1 =
      .ok { sessionID := id, contents := cts, lastActive := la,
            expiration := s * timeSecond } ∧
    durationToSeconds (s * timeSecond) = s := by
  have hsec := durationToSeconds_mul s
  have hw : wrapInt64 (s * timeSecond) = s * timeSecond := by
    apply wrapInt64_eq_self <;> simp only [timeSecond] <;> omega
  have hany : tbl.any (fun r => r.session_id == id) = false := by
    simp only [List.any_eq_false]
    intro r hr
    simp [hid r hr]
  refine ⟨?_, ?_, hsec⟩
  · simp [insert, insertExec, hany, hsec]
  · have hfind : (tbl ++ [(⟨id, cts, la, s⟩ : TableRow)]).find?
        (fun r => r.session_id == id) = some ⟨id, cts, la, s⟩ := by
      rw [find?_append_of_forall_false (fun r hr => by simp [hid r hr])]
      simp [List.find?]
    simp [getSessionBySessionID, hfind, hw]

/-- **C1 witness.** The spec scenario: insert `"s1"`, `"a"`, `1000`,
30 seconds into an empty table, then fetch it back. -/
theorem insert_fetch_roundtrip_witness :
    insert [] "s1" "a" 1000 (30 * timeSecond) =
      .ok ([⟨"s1", "a", 1000, 30⟩], 1) ∧
    (getSessionBySessionID [] [(⟨"s1", "a", 1000, 30⟩ : TableRow)] .ok "s1").1 =
      .ok { sessionID := "s1", contents := "a", lastActive := 1000,
            expiration := 30 * timeSecond } ∧
    durationToSeconds (30 * timeSecond) = 30 :=
  insert_fetch_roundtrip [] [] "s1" "a" 1000 30 (by simp) (by decide) (by decide)

/-- **C2 counterexample.** The claim says the no-rows path returns a record
with all fields in their zero state.  With a pool holding a released record
whose previous occupant had expiration `30 * timeSecond` (30 seconds, a
perfectly representable int64 duration), a fetch of an absent identifier
returns (without error) a record whose expiration is the stale value
multiplied once more by `time.Second` — the int64 product wraps to the
negative garbage value `-6893488147419103232`, which is not zero — because
`Reset` never clears the expiration field. -/
theorem fetch_noRows_stale_expiration_cex :
    (getSessionBySessionID (releaseDBRow ⟨"old", "data", 5, 30 * timeSecond⟩ [])
        [] .ok "absent").1 =
      .ok { sessionID := "", contents := "", lastActive := 0,
            expiration := -6893488147419103232 } ∧
    (-6893488147419103232 : Int) ≠ 0 ∧ (-6893488147419103232 : Int) < 0 :=
  ⟨rfl, by decide, by decide⟩

/-- **C2 (amended).** On the distinguished no-rows outcome,
`fetchBySessionID` returns no error and a record whose identifier, contents
and lastActive are zero/empty (assuming every pooled record went through
`Reset`); its expiration, however, is the acquired pooled record's retained
expiration multiplied (with int64 wrap-around) by one second — zero for a
fresh record but possibly a stale, overflow-corrupted nonzero value, since
`Reset` does not clear expiration.  Every other query or scan failure
returns that error and no record. -/
theorem fetch_noRows_empty_record (pool : List DBRow) (tbl : Table)
    (id msg : String) (hpool : ∀ p ∈ pool, p = p.Reset)
    (hnone : tbl.find? (fun r => r.session_id == id) = none) :
    (getSessionBySessionID pool tbl .ok id).1 =
      .ok { sessionID := "", contents := "", lastActive := 0,
            expiration := wrapInt64 ((acquireDBRow pool).1.expiration * timeSecond) } ∧
    (getSessionBySessionID pool tbl (.queryErr msg) id).1 = .error msg ∧
    (getSessionBySessionID pool tbl (.scanErr msg) id).1 = .error msg := by
  refine ⟨?_, rfl, rfl⟩
  cases pool with
  | nil => simp [getSessionBySessionID, acquireDBRow, hnone, DBRow.zero]
  | cons p ps =>
      have hp := hpool p (by simp)
      have h1 : p.sessionID = "" := by rw [hp]; rfl
      have h2 : p.contents = "" := by rw [hp]; rfl
      have h3 : p.lastActive = 0 := by rw [hp]; rfl
      simp [getSessionBySessionID, acquireDBRow, hnone, h1, h2, h3]

/-- **C2 witness.** Fetching an absent identifier from an empty table with a
fresh (empty) pool returns the zero record without error, and injected
query/scan failures return those errors. -/
theorem fetch_noRows_empty_record_witness :
    (getSessionBySessionID [] [] .ok "s1").1 =
      .ok { sessionID := "", contents := "", lastActive := 0,
            expiration := wrapInt64 ((acquireDBRow []).1.expiration * timeSecond) } ∧
    (getSessionBySessionID [] [] (.queryErr "boom") "s1").1 = .error "boom" ∧
    (getSessionBySessionID [] [] (.scanErr "boom") "s1").1 = .error "boom" :=
  fetch_noRows_empty_record [] [] "s1" "boom" (by simp) rfl

/-- **C3.** With `now` the single clock reading of the sweep call,
`deleteExpiredSessions` keeps exactly the rows NOT satisfying
`last_active + expiration ≤ now ∧ expiration ≠ 0` (so it deletes exactly
the rows satisfying it); every row with `expiration = 0` survives regardless
of its age, and the affected-row count accounts exactly for the deleted
rows. -/
theorem deleteExpiredSessions_spec (tbl : Table) (now : Int) :
    (∀ r : TableRow, r ∈ (deleteExpiredSessions tbl now).1 ↔
        r ∈ tbl ∧ ¬(r.last_active + r.expiration ≤ now ∧ r.expiration ≠ 0)) ∧
    (∀ r ∈ tbl, r.expiration = 0 → r ∈ (deleteExpiredSessions tbl now).1) ∧
    (deleteExpiredSessions tbl now).2 +
        ((deleteExpiredSessions tbl now).1.length : Int) = (tbl.length : Int) := by
  refine ⟨deleteExpired_mem tbl now, ?_, ?_⟩
  · intro r hr hz
    exact (deleteExpired_mem tbl now r).mpr ⟨hr, fun hc => hc.2 hz⟩
  · have h := length_filter_add_length_filter_not tbl (isExpired now)
    simp only [deleteExpiredSessions]
    omega

/-- **C3 witness.** The spec's expiration-exclusion scenario: a record with
`expiration = 0` and ancient `lastActive` survives the sweep, while a record
with nonzero expiration and `last_active + expiration ≤ now` is removed. -/
theorem deleteExpiredSessions_spec_witness :
    (⟨"keep", "c", -1000000, 0⟩ : TableRow) ∈
      (deleteExpiredSessions [⟨"keep", "c", -1000000, 0⟩, ⟨"gone", "d", 0, 10⟩]
        100).1 ∧
    (⟨"gone", "d", 0, 10⟩ : TableRow) ∉
      (deleteExpiredSessions [⟨"keep", "c", -1000000, 0⟩, ⟨"gone", "d", 0, 10⟩]
        100).1 := by
  constructor
  · exact (deleteExpiredSessions_spec
      [⟨"keep", "c", -1000000, 0⟩, ⟨"gone", "d", 0, 10⟩] 100).2.1
      ⟨"keep", "c", -1000000, 0⟩ (by simp) rfl
  · intro hmem
    have h := ((deleteExpiredSessions_spec
      [⟨"keep", "c", -1000000, 0⟩, ⟨"gone", "d", 0, 10⟩] 100).1
      ⟨"gone", "d", 0, 10⟩).mp hmem
    exact h.2 (by norm_num)

/-- **C4 counterexample.** The claim asserts the rename succeeds for every
`newID`.  With two live rows keyed `"a"` and `"b"`,
`regenerate("a", "b", ...)` would re-key `"a"` onto the key the other row
already holds; the unique `session_id` constraint makes postgres reject the
UPDATE with a duplicate-key error and change nothing — the rename does not
happen and no affected-row count is returned. -/
theorem regenerate_duplicate_newID_cex :
    regenerate [⟨"a", "c", 1, 2⟩, ⟨"b", "d", 3, 4⟩] "a" "b" 9 0 =
      .error "duplicate key value violates unique constraint" := rfl

/-- **C4 (amended).** Under the table's unique-identifier invariant, and
provided no row other than an `oldID` row already holds `newID`,
`regenerate(oldID, newID, lastActive, expiration)` succeeds: every row keyed
by `oldID` is re-keyed to `newID` with refreshed `last_active` and
`expiration` while its `contents` (and every other row) stay unchanged; it
never creates or removes a row (the row count is unchanged), and it affects
zero rows when no row is keyed by `oldID`.  When a different live row
already holds `newID`, the statement instead fails with a duplicate-key
error and changes nothing. -/
theorem regenerate_spec (tbl : Table) (oldID newID : String) (la : Int)
    (e : Duration)
    (huniq : tbl.Pairwise (fun a b => a.session_id ≠ b.session_id))
    (hfree : ∀ r ∈ tbl, r.session_id = newID → r.session_id = oldID) :
    ∃ tbl1 : Table, ∃ n : Int,
      regenerate tbl oldID newID la e = .ok (tbl1, n) ∧
      tbl1.length = tbl.length ∧
      (∀ i : Nat, ∀ r : TableRow, tbl[i]? = some r → r.session_id = oldID →
        tbl1[i]? =
          some { r with session_id := newID, last_active := la,
                        expiration := durationToSeconds e }) ∧
      (∀ i : Nat, ∀ r : TableRow, tbl[i]? = some r → r.session_id ≠ oldID →
        tbl1[i]? = some r) ∧
      (∀ i : Nat, (tbl1[i]?).map TableRow.contents =
        (tbl[i]?).map TableRow.contents) ∧
      ((∀ r ∈ tbl, r.session_id ≠ oldID) → n = 0) := by
  have hconf : regenerateConflict tbl oldID newID = false := by
    have hlen := filter_key_length_le_one tbl oldID huniq
    have h2 : tbl.any
        (fun r => r.session_id == newID && !(r.session_id == oldID)) = false := by
      simp only [List.any_eq_false]
      intro r hr
      by_cases h : r.session_id = newID
      · simp [hfree r hr h]
      · simp [h]
    have h3 : decide
        (2 ≤ (tbl.filter (fun r => r.session_id == oldID)).length) = false := by
      simp only [decide_eq_false_iff_not]
      omega
    unfold regenerateConflict
    rw [h2, h3]
    simp
  refine ⟨tbl.map (fun r =>
      if r.session_id == oldID then
        { r with session_id := newID, last_active := la,
                 expiration := durationToSeconds e }
      else r),
    ((tbl.filter (fun r => r.session_id == oldID)).length : Int),
    ?_, ?_, ?_, ?_, ?_, ?_⟩
  · simp [regenerate, hconf]
  · simp
  · intro i r hi hr
    simp [List.getElem?_map, hi, hr]
  · intro i r hi hr
    simp [List.getElem?_map, hi, hr]
  · intro i
    cases hi : tbl[i]? with
    | none => simp [List.getElem?_map, hi]
    | some r =>
        simp only [List.getElem?_map, hi]
        by_cases h : r.session_id = oldID <;> simp [h]
  · intro hnone
    have hfil : tbl.filter (fun r => r.session_id == oldID) = [] := by
      simp only [List.filter_eq_nil_iff]
      intro r hr
      simp [hnone r hr]
    simp [hfil]

/-- **C4 witness.** Rotating the only row of a one-row table to a fresh
identifier: the rename succeeds, the row is re-keyed with refreshed
metadata, contents intact, and the row count is unchanged. -/
theorem regenerate_spec_witness :
    ∃ tbl1 : Table, ∃ n : Int,
      regenerate [⟨"old", "c", 1, 2⟩] "old" "new" 5 (7 * timeSecond) =
        .ok (tbl1, n) ∧
      tbl1.length = ([⟨"old", "c", 1, 2⟩] : Table).length ∧
      (∀ i : Nat, ∀ r : TableRow, (([⟨"old", "c", 1, 2⟩] : Table))[i]? = some r →
        r.session_id = "old" →
        tbl1[i]? =
          some { r with session_id := "new", last_active := 5,
                        expiration := durationToSeconds (7 * timeSecond) }) ∧
      (∀ i : Nat, ∀ r : TableRow, (([⟨"old", "c", 1, 2⟩] : Table))[i]? = some r →
        r.session_id ≠ "old" → tbl1[i]? = some r) ∧
      (∀ i : Nat, (tbl1[i]?).map TableRow.contents =
        ((([⟨"old", "c", 1, 2⟩] : Table))[i]?).map TableRow.contents) ∧
      ((∀ r ∈ ([⟨"old", "c", 1, 2⟩] : Table), r.session_id ≠ "old") → n = 0) :=
  regenerate_spec [⟨"old", "c", 1, 2⟩] "old" "new" 5 (7 * timeSecond)
    (by simp) (by simp)

/-- **C9.** `updateBySessionID` modifies only the `contents`, `last_active`
and `expiration` columns of the rows whose `session_id` equals `id`: every
row's identifier is unchanged, every non-matching row is entirely unchanged,
the row count is unchanged, and when no row matches the affected-row count
is zero (the operation itself reports no error). -/
theorem updateBySessionID_frame (tbl : Table) (id cts : String) (la : Int)
    (e : Duration) :
    (updateBySessionID tbl id cts la e).1.length = tbl.length ∧
    (∀ i : Nat, ((updateBySessionID tbl id cts la e).1[i]?).map TableRow.session_id =
      (tbl[i]?).map TableRow.session_id) ∧
    (∀ i : Nat, ∀ r : TableRow, tbl[i]? = some r → r.session_id ≠ id →
      (updateBySessionID tbl id cts la e).1[i]? = some r) ∧
    (∀ i : Nat, ∀ r : TableRow, tbl[i]? = some r → r.session_id = id →
      (updateBySessionID tbl id cts la e).1[i]? =
        some { r with contents := cts, last_active := la,
                      expiration := durationToSeconds e }) ∧
    ((∀ r ∈ tbl, r.session_id ≠ id) → (updateBySessionID tbl id cts la e).2 = 0) := by
  refine ⟨?_, ?_, ?_, ?_, ?_⟩
  · simp [updateBySessionID, updateExec]
  · intro i
    cases hi : tbl[i]? with
    | none => simp [updateBySessionID, updateExec, List.getElem?_map, hi]
    | some r =>
        simp only [updateBySessionID, updateExec, List.getElem?_map, hi]
        by_cases h : r.session_id = id <;> simp [h]
  · intro i r hi hr
    simp [updateBySessionID, updateExec, List.getElem?_map, hi, hr]
  · intro i r hi hr
    simp [updateBySessionID, updateExec, List.getElem?_map, hi, hr]
  · intro hnone
    have : tbl.filter (fun r => r.session_id == id) = [] := by
      simp only [List.filter_eq_nil_iff]
      intro r hr
      simp [hnone r hr]
    simp [updateBySessionID, updateExec, this]

/-- **C9 witness.** Updating a two-row table by the first row's key changes
only that row's three data columns and leaves the other row and both
identifiers unchanged; updating by an absent key affects zero rows. -/
theorem updateBySessionID_frame_witness :
    (updateBySessionID [⟨"s1", "a", 1, 2⟩, ⟨"s2", "b", 3, 4⟩] "s1" "z" 9
        (6 * timeSecond)).1[0]? = some ⟨"s1", "z", 9, 6⟩ ∧
    (updateBySessionID [⟨"s1", "a", 1, 2⟩, ⟨"s2", "b", 3, 4⟩] "s1" "z" 9
        (6 * timeSecond)).1[1]? = some ⟨"s2", "b", 3, 4⟩ ∧
    (updateBySessionID [⟨"s1", "a", 1, 2⟩] "absent" "z" 9 (6 * timeSecond)).2 = 0 := by
  refine ⟨?_, ?_, ?_⟩
  · have h := (updateBySessionID_frame [⟨"s1", "a", 1, 2⟩, ⟨"s2", "b", 3, 4⟩]
      "s1" "z" 9 (6 * timeSecond)).2.2.2.1 0 ⟨"s1", "a", 1, 2⟩ rfl rfl
    rw [h]
    decide
  · exact (updateBySessionID_frame [⟨"s1", "a", 1, 2⟩, ⟨"s2", "b", 3, 4⟩]
      "s1" "z" 9 (6 * timeSecond)).2.2.1 1 ⟨"s2", "b", 3, 4⟩ rfl (by decide)
  · exact (updateBySessionID_frame [⟨"s1", "a", 1, 2⟩] "absent" "z" 9
      (6 * timeSecond)).2.2.2.2 (by decide)

end Session
